import Mathlib

/-!
Verification of the filtering and aggregation-selection core of the
road-accident dashboard (src/app.py), shallowly embedded in Lean 4.

The embedded pieces, in source order:
* `load_data` (app.py lines 22-33): sequential reads of eight named CSV
  files; a missing/unreadable file makes the whole load fail.
* the sidebar defaults (lines 54-56): `sorted(unique(column))` per dimension.
* `filtered_data` (lines 59-63): conjunction of three `isin` membership
  tests over Year / Accident Cause / Region.
* the `if/elif` section dispatch (lines 129-350): seven fixed section
  names, each building charts with literal column lists; no `else` branch.
* `weather_counts` (line 291): `value_counts()` over the filtered
  Weather Conditions column, `reindex`-ed to the five fixed categories
  (pandas `reindex` without `fill_value` puts NaN, modelled as `none`,
  for labels absent from the counted index).
-/

/-- One row of the primary dataset `sample_road_accident_data.csv`
(columns used by the core: Year, Accident Cause, Region, Weather
Conditions; other descriptive fields are not consulted). -/
structure AccidentRecord where
  year : Int
  accidentCause : String
  region : String
  weatherCondition : String
deriving DecidableEq, Repr

/-- The sidebar multiselect state: chosen years, causes and regions
(app.py lines 54-56). -/
structure FilterSelection where
  years : List Int
  causes : List String
  regions : List String
deriving DecidableEq, Repr

/-- The row predicate of app.py lines 60-62:
`Year.isin(selected_years) & Accident Cause.isin(selected_causes) &
Region.isin(selected_regions)`. -/
def recordPasses (sel : FilterSelection) (r : AccidentRecord) : Bool :=
  sel.years.contains r.year
    && sel.causes.contains r.accidentCause
    && sel.regions.contains r.region

/-- `filtered_data` of app.py lines 59-63: boolean-mask row selection on
the primary table, which keeps passing rows in their original order. -/
def filtered_data (records : List AccidentRecord) (sel : FilterSelection) :
    List AccidentRecord :=
  records.filter (recordPasses sel)

/-- Python `sorted(pandas.unique(column))` as used for the sidebar
defaults (app.py lines 54-56): distinct values, sorted ascending. -/
def sortedUnique {α : Type} [DecidableEq α] (le : α → α → Bool)
    (l : List α) : List α :=
  l.dedup.mergeSort le

/-- The default sidebar selection (app.py lines 54-56): every distinct
value observed in the primary table, per dimension. -/
def defaultSelection (records : List AccidentRecord) : FilterSelection where
  years := sortedUnique (fun a b => a ≤ b) (records.map (·.year))
  causes := sortedUnique (fun a b => a ≤ b) (records.map (·.accidentCause))
  regions := sortedUnique (fun a b => a ≤ b) (records.map (·.region))

/-- `pandas.Series.value_counts()`: one entry per distinct observed
value, paired with its number of occurrences.  (pandas orders the
entries by descending count; the dispatch only ever looks entries up by
label, so the embedding keeps first-occurrence order of the distinct
values.) -/
def value_counts (l : List String) : List (String × Nat) :=
  l.dedup.map (fun v => (v, l.count v))

/-- `pandas.Series.reindex(labels)` without `fill_value`: for each
requested label, the stored count when the label is present in the
counted index, and NaN (modelled `none`) when it is absent. -/
def reindex (labels : List String) (vc : List (String × Nat)) :
    List (String × Option Nat) :=
  labels.map (fun lab => (lab, vc.lookup lab))

/-- The five fixed weather categories of app.py line 291, in chart
order. -/
def weatherCategories : List String :=
  ["Windy", "Rainy", "Clear", "Snowy", "Foggy"]

/-- `weather_counts` of app.py line 291:
`filtered_data['Weather Conditions'].value_counts().reindex([...])`. -/
def weather_counts (filtered : List AccidentRecord) :
    List (String × Option Nat) :=
  reindex weatherCategories (value_counts (filtered.map (·.weatherCondition)))

/-- Which static aggregate table a section's charts draw from. -/
inductive TableId
  | yearly
  | monthly
  | daily
  | timeOfDay
  | roadType
  | weatherSeverity
  | causeSeverity
deriving DecidableEq, Repr

/-- The resolved view of one section: the aggregate table its charts
read, the literal column lists the charts plot from that table (in the
order the `px`/`go` calls name them), and, for the Weather Conditions
section only, the counts derived from the filtered primary table. -/
structure SectionView where
  table : TableId
  columns : List String
  derived : Option (List (String × Option Nat))
deriving DecidableEq, Repr

/-- Outcome of running the `if/elif` dispatch of app.py lines 129-350
on a section name: a branch matched and rendered a view, or an
exception was raised, or no branch matched and nothing was rendered.
(The source dispatch has no `else` branch and raises nothing itself;
the `raised` constructor exists so that statements about error
behaviour are expressible.) -/
inductive ResolveOutcome
  | rendered (v : SectionView)
  | raised (e : String)
  | fellThrough
deriving DecidableEq, Repr

/-- The seven section names offered by the sidebar selectbox
(app.py lines 39-50). -/
def sectionNames : List String :=
  ["Yearly Trends", "Monthly Trends", "Daily Trends", "Time of Day",
   "Road Type and Location", "Weather Conditions", "Outcomes by Cause"]

/-- The `if/elif` section dispatch of app.py lines 129-350.  Each
static branch plots literal column lists of its aggregate table
(bar-chart columns first, then any further table columns used by the
second chart, as in `yearly`'s line chart over `Total`); the Weather
Conditions branch derives `weather_counts` from the filtered records
and plots the static weather-severity table's Minor/Moderate/Severe
columns for its second chart.  An unmatched name reaches the end of
the chain: nothing is rendered and no exception is raised. -/
def resolve (sectionName : String) (filtered : List AccidentRecord) :
    ResolveOutcome :=
  if sectionName = "Yearly Trends" then
    .rendered ⟨.yearly,
      ["Weather", "Drunk Driving", "Mechanical Failure", "Speeding",
       "Distracted Driving", "Total"], none⟩
  else if sectionName = "Monthly Trends" then
    .rendered ⟨.monthly,
      ["Distracted Driving", "Drunk Driving", "Mechanical Failure",
       "Speeding", "Weather"], none⟩
  else if sectionName = "Daily Trends" then
    .rendered ⟨.daily,
      ["Friday", "Monday", "Saturday", "Sunday", "Thursday", "Tuesday",
       "Wednesday"], none⟩
  else if sectionName = "Time of Day" then
    .rendered ⟨.timeOfDay, ["Afternoon", "Evening", "Morning", "Night"], none⟩
  else if sectionName = "Road Type and Location" then
    .rendered ⟨.roadType, ["Minor", "Moderate", "Severe"], none⟩
  else if sectionName = "Weather Conditions" then
    .rendered ⟨.weatherSeverity, ["Minor", "Moderate", "Severe"],
      some (weather_counts filtered)⟩
  else if sectionName = "Outcomes by Cause" then
    .rendered ⟨.causeSeverity, ["Minor", "Moderate", "Severe"], none⟩
  else
    .fellThrough

/-- An in-memory tabular file: rows of cells.  The loader never
inspects contents, so the representation is opaque to every theorem. -/
abbrev Table := List (List String)

/-- The eight tables returned by `load_data` (app.py line 33). -/
structure LoadedTables where
  main_data : Table
  yearly_data : Table
  monthly_data : Table
  daily_data : Table
  time_data : Table
  road_type_data : Table
  weather_data : Table
  severity_data : Table

/-- The eight file names read by `load_data` (app.py lines 25-32), in
read order. -/
def requiredFiles : List String :=
  ["sample_road_accident_data.csv", "yearly_accidents.csv",
   "monthly_accidents.csv", "daily_accidents.csv", "time_accidents.csv",
   "road_type_severity.csv", "weather_severity.csv", "severity_by_cause.csv"]

/-- `load_data` of app.py lines 22-33: eight sequential `pd.read_csv`
calls.  The base directory is modelled as a partial map from file name
to parsed table; a `none` (missing or unreadable file) makes the
corresponding read raise, which aborts the whole function, so either
all eight tables are returned or none are. -/
def load_data (dir : String → Option Table) : Except String LoadedTables :=
  match dir "sample_road_accident_data.csv" with
  | none => .error "DataLoadError: sample_road_accident_data.csv"
  | some main =>
  match dir "yearly_accidents.csv" with
  | none => .error "DataLoadError: yearly_accidents.csv"
  | some yearly =>
  match dir "monthly_accidents.csv" with
  | none => .error "DataLoadError: monthly_accidents.csv"
  | some monthly =>
  match dir "daily_accidents.csv" with
  | none => .error "DataLoadError: daily_accidents.csv"
  | some daily =>
  match dir "time_accidents.csv" with
  | none => .error "DataLoadError: time_accidents.csv"
  | some time =>
  match dir "road_type_severity.csv" with
  | none => .error "DataLoadError: road_type_severity.csv"
  | some roadType =>
  match dir "weather_severity.csv" with
  | none => .error "DataLoadError: weather_severity.csv"
  | some weather =>
  match dir "severity_by_cause.csv" with
  | none => .error "DataLoadError: severity_by_cause.csv"
  | some severity =>
  .ok ⟨main, yearly, monthly, daily, time, roadType, weather, severity⟩

/-- The six sections whose charts read only a static aggregate table
(every section except Weather Conditions). -/
def staticSections : List String :=
  ["Yearly Trends", "Monthly Trends", "Daily Trends", "Time of Day",
   "Road Type and Location", "Outcomes by Cause"]

/-- The column list the §6 table of the specification assigns to each
static section — transcribed from the spec's words, to be compared
against the columns `resolve` actually produces. -/
def specSectionColumns (sectionName : String) : List String :=
  if sectionName = "Yearly Trends" then
    ["Weather", "Drunk Driving", "Mechanical Failure", "Speeding",
     "Distracted Driving", "Total"]
  else if sectionName = "Monthly Trends" then
    ["Distracted Driving", "Drunk Driving", "Mechanical Failure",
     "Speeding", "Weather"]
  else if sectionName = "Daily Trends" then
    ["Friday", "Monday", "Saturday", "Sunday", "Thursday", "Tuesday",
     "Wednesday"]
  else if sectionName = "Time of Day" then
    ["Afternoon", "Evening", "Morning", "Night"]
  else if sectionName = "Road Type and Location" then
    ["Minor", "Moderate", "Severe"]
  else if sectionName = "Outcomes by Cause" then
    ["Minor", "Moderate", "Severe"]
  else
    []

/-! ## Helper lemmas -/

/-- The row predicate holds exactly when all three membership tests do. -/
lemma recordPasses_iff (sel : FilterSelection) (r : AccidentRecord) :
    recordPasses sel r = true ↔
      r.year ∈ sel.years ∧ r.accidentCause ∈ sel.causes ∧
        r.region ∈ sel.regions := by
  simp [recordPasses, and_assoc]

/-- Looking a key up in an association list built by pairing each key
with a function of itself. -/
lemma lookup_map_fn (f : String → Nat) (lab : String) (ks : List String) :
    (ks.map fun v => (v, f v)).lookup lab =
      if lab ∈ ks then some (f lab) else none := by
  induction ks with
  | nil => simp
  | cons k ks ih =>
    by_cases h : lab = k
    · subst h
      simp [List.lookup]
    · have hbeq : (lab == k) = false := by simp [h]
      simp [List.lookup, hbeq, ih, h]

/-- Pointwise description of `weather_counts`: each of the five fixed
categories maps to `none` (NaN) when it never occurs among the filtered
records' weather values, and to its occurrence count otherwise. -/
lemma weather_counts_char (rs : List AccidentRecord) :
    weather_counts rs = weatherCategories.map (fun lab =>
      (lab,
        if (rs.map (·.weatherCondition)).count lab = 0 then none
        else some ((rs.map (·.weatherCondition)).count lab))) := by
  unfold weather_counts reindex value_counts
  apply List.map_congr_left
  intro lab _
  rw [lookup_map_fn]
  by_cases h : lab ∈ rs.map (·.weatherCondition)
  · rw [if_pos (by simpa using h), if_neg (by simpa [List.count_eq_zero] using h)]
  · rw [if_neg (by simpa using h), if_pos (by simpa [List.count_eq_zero] using h)]

/-- Dropping the records whose weather value lies outside the five
fixed categories changes no category's occurrence count. -/
lemma weatherFilter_count (rs : List AccidentRecord) (lab : String)
    (hlab : lab ∈ weatherCategories) :
    ((rs.filter fun r => weatherCategories.contains r.weatherCondition).map
        (·.weatherCondition)).count lab =
      (rs.map (·.weatherCondition)).count lab := by
  induction rs with
  | nil => simp
  | cons r rs ih =>
    by_cases hm : r.weatherCondition ∈ weatherCategories
    · rw [List.filter_cons, if_pos (by simpa using hm), List.map_cons,
        List.map_cons, List.count_cons, List.count_cons, ih]
    · have hne : r.weatherCondition ≠ lab := fun he => hm (he ▸ hlab)
      rw [List.filter_cons, if_neg (by simpa using hm), ih, List.map_cons,
        List.count_cons]
      simp [hne]

/-! ## The claims -/

/-- C1: a record survives `filtered_data` exactly when it lies in the
input list and its year, cause and region each belong to the selected
sets (conjunction of three independent membership tests). -/
theorem filtered_data_mem_iff (records : List AccidentRecord)
    (sel : FilterSelection) (_hy : sel.years ≠ []) (_hc : sel.causes ≠ [])
    (_hr : sel.regions ≠ []) (r : AccidentRecord) :
    r ∈ filtered_data records sel ↔
      r ∈ records ∧ r.year ∈ sel.years ∧ r.accidentCause ∈ sel.causes ∧
        r.region ∈ sel.regions := by
  rw [filtered_data, List.mem_filter, recordPasses_iff]

theorem filtered_data_mem_iff_witness :
    (([(2000 : Int)] : List Int) ≠ []) ∧ (["Speeding"] : List String) ≠ [] ∧
      (["North"] : List String) ≠ [] ∧
      ((⟨2000, "Speeding", "North", "Clear"⟩ : AccidentRecord) ∈
          filtered_data [⟨2000, "Speeding", "North", "Clear"⟩]
            ⟨[2000], ["Speeding"], ["North"]⟩ ↔
        (⟨2000, "Speeding", "North", "Clear"⟩ : AccidentRecord) ∈
            [(⟨2000, "Speeding", "North", "Clear"⟩ : AccidentRecord)] ∧
          (2000 : Int) ∈ [(2000 : Int)] ∧ "Speeding" ∈ ["Speeding"] ∧
          "North" ∈ ["North"]) :=
  ⟨by decide, by decide, by decide,
    filtered_data_mem_iff [⟨2000, "Speeding", "North", "Clear"⟩]
      ⟨[2000], ["Speeding"], ["North"]⟩ (by decide) (by decide) (by decide)
      ⟨2000, "Speeding", "North", "Clear"⟩⟩

/-- C5: applying `filtered_data` twice with the same selection gives
the same list as applying it once (the boolean-mask filter is
idempotent). -/
theorem filtered_data_idempotent (records : List AccidentRecord)
    (sel : FilterSelection) :
    filtered_data (filtered_data records sel) sel =
      filtered_data records sel := by
  simp [filtered_data, List.filter_filter]

/-- C6: filtering with the default sidebar selection — all distinct
observed values of each dimension — returns the record list unchanged,
in the same order. -/
theorem filtered_data_default_id (records : List AccidentRecord) :
    filtered_data records (defaultSelection records) = records := by
  rw [filtered_data, List.filter_eq_self]
  intro r hr
  rw [recordPasses_iff]
  simp only [defaultSelection, sortedUnique, List.mem_mergeSort,
    List.mem_dedup, List.mem_map]
  exact ⟨⟨r, hr, rfl⟩, ⟨r, hr, rfl⟩, ⟨r, hr, rfl⟩⟩

/-- C7: if any one of the three dimension selections is empty, the
filter keeps no record (an empty result, not an error). -/
theorem filtered_data_empty_dimension (records : List AccidentRecord)
    (sel : FilterSelection)
    (h : sel.years = [] ∨ sel.causes = [] ∨ sel.regions = []) :
    filtered_data records sel = [] := by
  rw [filtered_data, List.filter_eq_nil_iff]
  intro r _
  rcases h with h | h | h <;> simp [recordPasses, h]

theorem filtered_data_empty_dimension_witness :
    (([] : List Int) = [] ∨ (["Speeding"] : List String) = [] ∨
        (["North"] : List String) = []) ∧
      filtered_data [⟨2000, "Speeding", "North", "Clear"⟩]
        ⟨[], ["Speeding"], ["North"]⟩ = [] :=
  ⟨Or.inl rfl,
    filtered_data_empty_dimension [⟨2000, "Speeding", "North", "Clear"⟩]
      ⟨[], ["Speeding"], ["North"]⟩ (Or.inl rfl)⟩

/-- C9: `filtered_data` returns a subsequence of its input — every
surviving record is an unmodified element of the input, in its original
relative position.  Purity and determinism are intrinsic here: the
filter is a total function of `(records, sel)` and the input list is
immutable. -/
theorem filtered_data_sublist (records : List AccidentRecord)
    (sel : FilterSelection) :
    (filtered_data records sel).Sublist records :=
  List.filter_sublist records

/-- C2 counterexample: on filtered records whose weather values are
`["Rainy", "Rainy", "Clear"]`, `weather_counts` reports
`[NaN, 2, 1, NaN, NaN]` — the categories absent from the data carry
NaN (`none`), not the count `0` the claim states (`reindex` is called
without `fill_value`). -/
theorem weather_counts_zero_counterexample :
    (weather_counts
        [⟨2001, "Speeding", "East", "Rainy"⟩,
         ⟨2001, "Speeding", "East", "Rainy"⟩,
         ⟨2002, "Weather", "West", "Clear"⟩]).map Prod.snd =
      [none, some 2, some 1, none, none] ∧
    (weather_counts
        [⟨2001, "Speeding", "East", "Rainy"⟩,
         ⟨2001, "Speeding", "East", "Rainy"⟩,
         ⟨2002, "Weather", "West", "Clear"⟩]).map Prod.snd ≠
      [some 0, some 2, some 1, some 0, some 0] := by
  constructor
  · rfl
  · decide

/-- C2 (amended): resolving the Weather Conditions section produces
one entry per category in the fixed order
`[Windy, Rainy, Clear, Snowy, Foggy]`; a category occurring in the
filtered records reports its occurrence count, and a category absent
from them reports a missing value (pandas NaN, here `none`) — not
zero. -/
theorem weather_counts_entries (rs : List AccidentRecord) :
    weather_counts rs = weatherCategories.map (fun lab =>
      (lab,
        if (rs.map (·.weatherCondition)).count lab = 0 then none
        else some ((rs.map (·.weatherCondition)).count lab))) :=
  weather_counts_char rs

/-- C10: the reported vector covers exactly the five fixed categories
(its labels are `weatherCategories`), and records whose weather value
lies outside those five categories contribute to none of the reported
counts: dropping them leaves `weather_counts` unchanged. -/
theorem weather_counts_ignores_other_values (rs : List AccidentRecord) :
    (weather_counts rs).map Prod.fst = weatherCategories ∧
      weather_counts rs =
        weather_counts (rs.filter fun r =>
          weatherCategories.contains r.weatherCondition) := by
  constructor
  · rw [weather_counts_char rs, List.map_map]
    exact List.map_id weatherCategories
  · rw [weather_counts_char, weather_counts_char]
    apply List.map_congr_left
    intro lab hlab
    rw [weatherFilter_count rs lab hlab]

/-- C3 counterexample: the dispatch has no `else` branch, so an
unrecognized section name renders nothing and raises nothing — in
particular it does not fail with `UnknownSectionError`. -/
theorem resolve_unknown_counterexample :
    resolve "Accident Hotspots" [] = ResolveOutcome.fellThrough ∧
      resolve "Accident Hotspots" [] ≠
        ResolveOutcome.raised "UnknownSectionError" := by
  constructor
  · rfl
  · decide

/-- C3 (amended): a section name outside the seven fixed names matches
no branch of the `if/elif` dispatch: `resolve` falls through, producing
no section view and raising no error (the unknown name is silently
ignored rather than rejected). -/
theorem resolve_unknown_fellThrough (s : String) (h : s ∉ sectionNames)
    (filtered : List AccidentRecord) :
    resolve s filtered = ResolveOutcome.fellThrough := by
  simp only [sectionNames, List.mem_cons, List.not_mem_nil, or_false,
    not_or] at h
  obtain ⟨h1, h2, h3, h4, h5, h6, h7⟩ := h
  simp [resolve, h1, h2, h3, h4, h5, h6, h7]

theorem resolve_unknown_fellThrough_witness :
    "Accident Hotspots" ∉ sectionNames ∧
      resolve "Accident Hotspots" [⟨2003, "Weather", "South", "Foggy"⟩] =
        ResolveOutcome.fellThrough :=
  ⟨by decide,
    resolve_unknown_fellThrough "Accident Hotspots" (by decide)
      [⟨2003, "Weather", "South", "Foggy"⟩]⟩

/-- C8: each of the six static-table sections resolves, for every
filtered record list, to a rendered view whose column list is exactly
the fixed list the specification's §6 assigns to that section, and the
view carries no data derived from the filtered records. -/
theorem resolve_static_columns (s : String) (h : s ∈ staticSections)
    (filtered : List AccidentRecord) :
    ∃ v : SectionView, resolve s filtered = ResolveOutcome.rendered v ∧
      v.columns = specSectionColumns s ∧ v.derived = none := by
  simp only [staticSections, List.mem_cons, List.not_mem_nil, or_false] at h
  rcases h with rfl | rfl | rfl | rfl | rfl | rfl <;> exact ⟨_, rfl, rfl, rfl⟩

theorem resolve_static_columns_witness :
    "Yearly Trends" ∈ staticSections ∧
      ∃ v : SectionView,
        resolve "Yearly Trends" [] = ResolveOutcome.rendered v ∧
          v.columns = specSectionColumns "Yearly Trends" ∧
          v.derived = none :=
  ⟨by decide, resolve_static_columns "Yearly Trends" (by decide) []⟩

/-- C4: if any of the eight required files is missing or unreadable
(`dir` yields `none` for it), `load_data` fails with a load error; in
particular no `LoadedTables` value is produced, so no partially loaded
table set can be observed (all-or-nothing). -/
theorem load_data_all_or_nothing (dir : String → Option Table)
    (h : ∃ f ∈ requiredFiles, dir f = none) :
    ∃ e : String, load_data dir = Except.error e := by
  obtain ⟨f, hf, hn⟩ := h
  unfold load_data
  split
  · exact ⟨_, rfl⟩
  split
  · exact ⟨_, rfl⟩
  split
  · exact ⟨_, rfl⟩
  split
  · exact ⟨_, rfl⟩
  split
  · exact ⟨_, rfl⟩
  split
  · exact ⟨_, rfl⟩
  split
  · exact ⟨_, rfl⟩
  split
  · exact ⟨_, rfl⟩
  exfalso
  simp only [requiredFiles, List.mem_cons, List.not_mem_nil, or_false] at hf
  rcases hf with rfl | rfl | rfl | rfl | rfl | rfl | rfl | rfl <;> simp_all

theorem load_data_all_or_nothing_witness :
    (∃ f ∈ requiredFiles,
        (fun _ : String => (none : Option Table)) f = none) ∧
      ∃ e : String,
        load_data (fun _ => (none : Option Table)) = Except.error e :=
  ⟨⟨"yearly_accidents.csv", by decide, rfl⟩,
    load_data_all_or_nothing (fun _ => none)
      ⟨"yearly_accidents.csv", by decide, rfl⟩⟩
